import Mathlib

/-
  Verification of the quantum-portfolio-optimizer frontend and of the
  optimization-pipeline algebra described in its design document.

  The JavaScript/JSX sources are embedded shallowly:
  * strings are Lean `String`s (lists of characters), JS numbers are `ℚ`,
    `undefined`/nullable values are `Option`, thrown errors are `Except`;
  * React components become pure functions from their props to a view value;
  * `Number.prototype.toFixed(d)` followed by `parseFloat` becomes `toFixedRat d`
    (round half away from zero at `d` decimal digits);
  * the QUBO builder and Ising mapper live in the Python backend, which is not
    part of the frontend sources; they are modelled from the design document and
    are marked as such below.
-/

/-! ## Generic JS-semantics helpers -/

/-- Embedding of `parseFloat(x.toFixed(d))`: round `x` to `d` decimal digits
(half rounds up, as `toFixed` picks the larger candidate on a tie). -/
def toFixedRat (d : Nat) (x : ℚ) : ℚ :=
  (⌊x * (10 : ℚ) ^ d + 1 / 2⌋ : ℚ) / (10 : ℚ) ^ d

/-- Embedding of `String.prototype.trim`: drop whitespace from both ends. -/
def jsTrim (s : String) : String :=
  String.mk (((s.data.dropWhile Char.isWhitespace).reverse.dropWhile Char.isWhitespace).reverse)

/-- Embedding of `String.prototype.toUpperCase` (ASCII case mapping). -/
def jsToUpper (s : String) : String :=
  String.mk (s.data.map Char.toUpper)

/-- Truthiness of a possibly-absent JS string: `undefined`/`null` and `""` are falsy. -/
def jsTruthy (s : Option String) : Bool :=
  match s with
  | none => false
  | some s => s ≠ ""

/-! ## TickerInput.jsx -/

/-- The constant `MAX_TICKERS` from TickerInput.jsx. -/
def maxTickers : Nat := 50

/-- One character of the ticker regex character class `[A-Z0-9.\-]`. -/
def validTickerChar (c : Char) : Bool :=
  (decide ('A' ≤ c) && decide (c ≤ 'Z')) ||
  (decide ('0' ≤ c) && decide (c ≤ '9')) ||
  c == '.' || c == '-'

/-- The test `/^[A-Z0-9.\-]{1,10}$/.test(ticker)` from TickerInput.jsx. -/
def validTicker (s : String) : Bool :=
  decide (1 ≤ s.data.length) && decide (s.data.length ≤ 10) && s.data.all validTickerChar

/-- The local state of TickerInput that `addTicker` reads and writes:
the ticker list (lifted state via `setTickers`), the text input, and the
`inputError` message (empty string = no error shown). -/
structure TickerInputState where
  tickers : List String
  input : String
  inputError : String
  deriving Repr, DecidableEq

/-- The normalization at the top of `addTicker`:
`const ticker = raw.trim().toUpperCase()`. -/
def normalizeTickerInput (raw : String) : String :=
  jsToUpper (jsTrim raw)

/-- The handler `addTicker` from TickerInput.jsx: trim + uppercase the raw input, then
reject (with an inline error) bad format, duplicates, and a full list;
otherwise append the ticker and clear the input and the error. -/
def addTicker (s : TickerInputState) (raw : String) : TickerInputState :=
  if normalizeTickerInput raw = "" then s
  else if ¬ (validTicker (normalizeTickerInput raw) = true) then
    { s with inputError := "Invalid ticker format" }
  else if normalizeTickerInput raw ∈ s.tickers then
    { s with inputError := normalizeTickerInput raw ++ " already added" }
  else if maxTickers ≤ s.tickers.length then
    { s with inputError := "Max " ++ toString maxTickers ++ " tickers" }
  else { tickers := s.tickers ++ [normalizeTickerInput raw], input := "", inputError := "" }

/-- The handler `removeTicker` from TickerInput.jsx: `setTickers(p => p.filter(x => x !== t))`. -/
def removeTicker (s : TickerInputState) (t : String) : TickerInputState :=
  { s with tickers := s.tickers.filter (fun x => x != t) }

/-- The Backspace branch of `handleKeyDown`: when the text input is empty and
the list is non-empty, drop the last ticker (`p.slice(0, -1)`). -/
def tickerBackspace (s : TickerInputState) : TickerInputState :=
  if s.input = "" ∧ s.tickers ≠ [] then { s with tickers := s.tickers.dropLast } else s

/-- The three ticker-list operations reachable from the TickerInput UI. -/
inductive TickerOp where
  | add (raw : String)
  | remove (t : String)
  | backspace
  deriving Repr

/-- Apply one ticker-list operation. -/
def applyTickerOp (s : TickerInputState) : TickerOp → TickerInputState
  | .add raw => addTicker s raw
  | .remove t => removeTicker s t
  | .backspace => tickerBackspace s

/-- Initial TickerInput state (`useState([])`, `useState("")`). -/
def initialTickerState : TickerInputState :=
  { tickers := [], input := "", inputError := "" }

/-- Run a sequence of ticker-list operations from the initial state. -/
def runTickerOps (ops : List TickerOp) : TickerInputState :=
  ops.foldl applyTickerOp initialTickerState

/-- The AssetUniverse invariant: duplicate-free, at most `MAX_TICKERS` entries,
and every entry matches the ticker format (hence is uppercase). -/
def TickerInv (l : List String) : Prop :=
  l.Nodup ∧ l.length ≤ maxTickers ∧ ∀ t ∈ l, validTicker t = true

/-! ## The optimize response object (PortfolioResults.jsx destructuring) -/

/-- One `expected_return`/`volatility`/`sharpe_ratio` metrics record. -/
structure MetricsEntry where
  expected_return : ℚ
  volatility : ℚ
  sharpe_ratio : ℚ
  deriving Repr, DecidableEq

/-- The `metrics` field of the response: QAOA and classical entries. -/
structure MetricsObj where
  qaoa : MetricsEntry
  classical : MetricsEntry
  deriving Repr, DecidableEq

/-- One point of the backtest series (date plus the three cumulative returns). -/
structure BacktestPoint where
  date : String
  cumulative_return_qaoa : ℚ
  cumulative_return_classical : ℚ
  cumulative_return_benchmark : ℚ
  deriving Repr, DecidableEq

/-- One frontier point as consumed by EfficientFrontier.jsx (the tag field is
named `type` in the data the component reads). -/
structure FrontierPoint where
  volatility : ℚ
  expected_return : ℚ
  sharpe : ℚ
  type : String
  deriving Repr, DecidableEq

/-- The full documented optimize response as destructured by PortfolioResults.
`dropped_tickers` and `fallback_reason` are nullable there, the rest of the
fields are present on every documented response. -/
structure ResultsObj where
  qaoa_allocation : List (String × ℚ)
  classical_allocation : List (String × ℚ)
  metrics : MetricsObj
  benchmark : MetricsEntry
  correlation_matrix : List (List ℚ)
  tickers : List String
  dropped_tickers : Option (List String)
  backend_used : String
  used_simulator_fallback : Bool
  fallback_reason : Option String
  raw_counts : List (String × Nat)
  backtest : List BacktestPoint
  frontier : List FrontierPoint
  convergence : List ℚ
  deriving Repr

/-! ## BenchmarkChart.jsx -/

/-- One point of the BenchmarkChart data series (`month`, `QAOA`, `"S&P 500"`). -/
structure BenchPoint where
  month : String
  qaoaPct : ℚ
  spyPct : ℚ
  deriving Repr, DecidableEq

/-- The running value of the compounding loop in BenchmarkChart.jsx:
`val = 100` initially, then `val *= (1 + monthly)` once per month. -/
def benchGrow (monthly : ℚ) : Nat → ℚ
  | 0 => 100
  | m + 1 => benchGrow monthly m * (1 + monthly)

/-- The month label of BenchmarkChart.jsx. -/
def benchLabel (m : Nat) : String :=
  if m ≤ 12 then toString m ++ "M"
  else toString (m / 12) ++ "Y" ++ (if m % 12 ≠ 0 then toString (m % 12) ++ "M" else "")

/-- The `data` useMemo of BenchmarkChart.jsx: 24 months of monthly compounding of
the annualized expected returns of the QAOA allocation and of the benchmark,
each point rounded by `toFixed(2)`. -/
def benchmarkChartData (metrics : MetricsObj) (benchmark : MetricsEntry) : List BenchPoint :=
  let qaoaMonthly := metrics.qaoa.expected_return / 12
  let spyMonthly := benchmark.expected_return / 12
  (List.range (24 + 1)).map (fun m =>
    if m = 0 then { month := "Start", qaoaPct := 0, spyPct := 0 }
    else
      { month := benchLabel m
        qaoaPct := toFixedRat 2 (benchGrow qaoaMonthly m - 100)
        spyPct := toFixedRat 2 (benchGrow spyMonthly m - 100) })

/-- The badge text rendered next to the BenchmarkChart title. -/
def benchmarkChartBadge : String := "Projected · 2-year"

/-- The footnote rendered under the BenchmarkChart. -/
def benchmarkChartFootnote : String :=
  "* Projection uses annualized expected return. Actual results will vary."

/-- The props BenchmarkChart destructures; a field is `none` when the caller
did not pass that prop (JS `undefined`). -/
structure BenchmarkChartProps where
  metrics : Option MetricsObj
  benchmark : Option MetricsEntry
  backtest : Option (List BacktestPoint)
  deriving Repr

/-- The props PortfolioResults.jsx actually passes at line 72:
`<BenchmarkChart backtest={backtest} />` — no `metrics`, no `benchmark`. -/
def portfolioResultsBenchmarkChartProps (r : ResultsObj) : BenchmarkChartProps :=
  { metrics := none, benchmark := none, backtest := some r.backtest }

/-- Rendering BenchmarkChart: it immediately reads `metrics.qaoa.expected_return`
and `benchmark.expected_return`; if either prop is `undefined` this throws a
TypeError before producing any data. -/
def benchmarkChartRender (p : BenchmarkChartProps) : Except String (List BenchPoint) :=
  match p.metrics, p.benchmark with
  | none, _ => .error "TypeError: cannot read properties of undefined (reading qaoa)"
  | some _, none => .error "TypeError: cannot read properties of undefined (reading expected_return)"
  | some m, some b => .ok (benchmarkChartData m b)

/-- Closed form of one BenchmarkChart data point (used to state what the
component computes: a pure projection from the two annualized returns). -/
def projectionPoint (qaoaMonthly spyMonthly : ℚ) (m : Nat) : BenchPoint :=
  if m = 0 then { month := "Start", qaoaPct := 0, spyPct := 0 }
  else
    { month := benchLabel m
      qaoaPct := toFixedRat 2 (100 * (1 + qaoaMonthly) ^ m - 100)
      spyPct := toFixedRat 2 (100 * (1 + spyMonthly) ^ m - 100) }

/-- Modelled from the spec (§4.8 Backtest Engine, the code is in the absent
backend): the day-by-day cumulative compound return of a daily portfolio
return series, `C(t) = (∏ k ≤ t, (1 + r k)) − 1`. -/
def cumulativeReplay_spec (dailyReturns : List ℚ) : List ℚ :=
  (List.range dailyReturns.length).map
    (fun t => ((dailyReturns.take (t + 1)).map (fun r => 1 + r)).prod - 1)

/-! ## PortfolioResults.jsx view tree -/

/-- The reason text baked into the dropped-tickers notice of PortfolioResults. -/
def droppedReason : String := "insufficient historical data (<30 trading days)"

/-- One section of the PortfolioResults view, carrying exactly the props each
child element is given by PortfolioResults.jsx. -/
inductive ResultSection where
  | backendBadge (backend_used : String) (used_simulator_fallback : Bool)
      (fallback_reason : Option String)
  | droppedNotice (names : String) (reason : String) (remaining : Nat)
  | allocation (qaoa_allocation classical_allocation : List (String × ℚ))
  | metricsPanel (metrics : Option MetricsObj) (benchmark : Option MetricsEntry)
  | correlationHeatmap (correlation_matrix : List (List ℚ)) (tickers : List String)
  | comparison (metrics : Option MetricsObj)
  | efficientFrontier (frontier : List FrontierPoint) (metrics : Option MetricsObj)
  | benchmarkChart (props : BenchmarkChartProps)
  | convergenceChart (convergence : List ℚ)
  | measurementCounts (raw_counts : List (String × Nat))
  deriving Repr

/-- The view tree returned by the PortfolioResults component: a fixed sequence
of sections, with the dropped-tickers notice present exactly when
`dropped_tickers?.length > 0`; the notice interpolates
`dropped_tickers.join(", ")` and the fixed reason text. -/
def portfolioResultsView (r : ResultsObj) : List ResultSection :=
  [ResultSection.backendBadge r.backend_used r.used_simulator_fallback r.fallback_reason]
  ++ (match r.dropped_tickers with
      | some l => if 0 < l.length then
          [ResultSection.droppedNotice (String.intercalate ", " l) droppedReason
            r.tickers.length]
        else []
      | none => [])
  ++ [ResultSection.allocation r.qaoa_allocation r.classical_allocation,
      ResultSection.metricsPanel (some r.metrics) (some r.benchmark),
      ResultSection.correlationHeatmap r.correlation_matrix r.tickers,
      ResultSection.comparison (some r.metrics),
      ResultSection.efficientFrontier r.frontier (some r.metrics),
      ResultSection.benchmarkChart (portfolioResultsBenchmarkChartProps r),
      ResultSection.convergenceChart r.convergence,
      ResultSection.measurementCounts r.raw_counts]

/-! ## AllocationChart.jsx -/

/-- The helper `toData` from AllocationChart.jsx: keep the positive-percentage entries and
round each value with `toFixed(1)`. -/
def allocToData (alloc : List (String × ℚ)) : List (String × ℚ) :=
  (alloc.filter (fun nv => decide (0 < nv.2))).map (fun nv => (nv.1, toFixedRat 1 nv.2))

/-- The flag `noAlloc` in the `Pie2` subcomponent: every data value is zero
(vacuously true for empty data). -/
def pieNoAlloc (data : List (String × ℚ)) : Bool :=
  data.all (fun d => d.2 == 0)

/-- The data series the `Pie` element receives: the placeholder ring
`[{name: "None", value: 1}]` in the degenerate case, the data otherwise. -/
def pieChartData (data : List (String × ℚ)) : List (String × ℚ) :=
  if pieNoAlloc data then [("None", 1)] else data

/-- The legend below the pie: the entries of `data` with positive value. -/
def pieLegend (data : List (String × ℚ)) : List (String × ℚ) :=
  data.filter (fun d => decide (0 < d.2))

/-! ## client.js and usePortfolio.js -/

/-- The outcome of the POST `/optimize` call, before the Axios response
interceptor runs: either a response object, or a failure carrying the optional
`response.data.detail`, `response.data.message` and transport `err.message`. -/
inductive OptimizeOutcome where
  | ok (data : ResultsObj)
  | failure (detail dataMessage errMessage : Option String)

/-- The message picked by the response interceptor in client.js:
`detail || message || err.message || "An unexpected error occurred"`. -/
def normalizeErrorMessage (detail dataMessage errMessage : Option String) : String :=
  if jsTruthy detail then detail.getD ""
  else if jsTruthy dataMessage then dataMessage.getD ""
  else if jsTruthy errMessage then errMessage.getD ""
  else "An unexpected error occurred"

/-- The function `optimizePortfolio` as seen by callers: the interceptor rethrows every
failure as a plain `Error` carrying only the normalized message. -/
def optimizePortfolio (outcome : OptimizeOutcome) : Except String ResultsObj :=
  match outcome with
  | .ok data => .ok data
  | .failure d m e => .error (normalizeErrorMessage d m e)

/-- The usePortfolio hook state touched by `handleSubmit`. -/
structure PortfolioState where
  tickers : List String
  riskTolerance : ℚ
  apiKey : String
  useSimulator : Bool
  results : Option ResultsObj
  loading : Bool
  loadingStage : String
  error : Option String

/-- The handler `handleSubmit` from usePortfolio.js, with the eventual request outcome as a
parameter. Returns the final state and whether an optimize request was issued.
Fewer than two tickers: set the error and return at once. Otherwise set
loading/clear error and results, await the request, store the data or the
normalized error message, and always clear loading. -/
def handleSubmit (s : PortfolioState) (outcome : OptimizeOutcome) :
    PortfolioState × Bool :=
  if s.tickers.length < 2 then
    ({ s with error := some "Please add at least 2 stock tickers." }, false)
  else
    let s1 := { s with loading := true, error := none, results := none }
    let s2 :=
      match optimizePortfolio outcome with
      | .ok data => { s1 with results := some data }
      | .error msg => { s1 with error := some msg }
    ({ s2 with loading := false, loadingStage := "" }, true)

/-! ## EfficientFrontier.jsx -/

/-- The `random` useMemo: the points tagged `random` (the `* 100` presentation
scaling applied afterwards does not change which points are plotted). -/
def frontierRandomCloud (frontier : List FrontierPoint) : List FrontierPoint :=
  frontier.filter (fun p => p.type == "random")

/-- The `curve` useMemo: the points tagged `frontier`, sorted by ascending
volatility (`.sort((a, b) => a.volatility - b.volatility)`, a stable sort). -/
def frontierCurve (frontier : List FrontierPoint) : List FrontierPoint :=
  (frontier.filter (fun p => p.type == "frontier")).mergeSort
    (fun a b => decide (a.volatility ≤ b.volatility))

/-! ## ConvergenceChart (unnamed part_004) -/

/-- The thinning stride: `Math.max(1, Math.floor(convergence.length / 80))`. -/
def convergenceStep (convergence : List ℚ) : Nat :=
  max 1 (convergence.length / 80)

/-- The kept `(index, cost)` pairs:
`convergence.filter((_, i) => i % step === 0 || i === convergence.length - 1)`. -/
def convergenceKept (convergence : List ℚ) : List (Nat × ℚ) :=
  convergence.enum.filter
    (fun ic => ic.1 % convergenceStep convergence == 0 || ic.1 == convergence.length - 1)

/-- The plotted data: each kept cost becomes `{i: k*step + 1, cost: round6 cost}`
where `k` is the position in the thinned list. -/
def convergenceData (convergence : List ℚ) : List (Nat × ℚ) :=
  (convergenceKept convergence).enum.map
    (fun kic => (kic.1 * convergenceStep convergence + 1, toFixedRat 6 kic.2.2))

/-- The iteration count in the chart header: `{convergence.length} iterations`. -/
def convergenceIterationsDisplayed (convergence : List ℚ) : Nat :=
  convergence.length

/-! ## QUBO builder and Ising mapper (backend, modelled from the spec) -/

/-- Modelled from the spec: the maximum absolute entry of a matrix, the
normalizer of §4.1 ("normalize Σ by its maximum absolute entry"). -/
def maxAbsMatrix (n : Nat) (M : Fin n → Fin n → ℚ) : ℚ :=
  ((List.finRange n).map
    (fun i => ((List.finRange n).map (fun j => |M i j|)).foldr max 0)).foldr max 0

/-- Modelled from the spec: the maximum absolute entry of a vector, the
normalizer of §4.1 for μ. -/
def maxAbsVec (n : Nat) (v : Fin n → ℚ) : ℚ :=
  ((List.finRange n).map (fun i => |v i|)).foldr max 0

/-- Modelled from the spec (§4.1 QUBO Builder, code in the absent backend):
normalize Σ and μ by their maximum absolute entries, then
`Q i i = Σ' i i − λ·μ' i` and `Q i j = Σ' i j` off the diagonal. -/
def quboBuild (n : Nat) (sigma : Fin n → Fin n → ℚ) (mu : Fin n → ℚ) (lam : ℚ) :
    Fin n → Fin n → ℚ :=
  let sN := maxAbsMatrix n sigma
  let mN := maxAbsVec n mu
  fun i j => if i = j then sigma i i / sN - lam * (mu i / mN) else sigma i j / sN

/-- Modelled from the spec (§4.2 Ising Mapper): the linear coefficient of
`z k` after substituting `x i = (1 − z i)/2` into `xᵀQx` and collecting. -/
def isingH (n : Nat) (Q : Fin n → Fin n → ℚ) : Fin n → ℚ :=
  fun i => -(1 / 4) * ((∑ j, Q i j) + (∑ j, Q j i))

/-- Modelled from the spec (§4.2 Ising Mapper): the pairwise coefficient of
`z i * z j` (used for `i < j`) after the same substitution. -/
def isingJ (n : Nat) (Q : Fin n → Fin n → ℚ) : Fin n → Fin n → ℚ :=
  fun i j => (1 / 4) * (Q i j + Q j i)

/-- Modelled from the spec (§4.2 Ising Mapper): the constant term collected by
the substitution (the diagonal contributes via `z i * z i = 1`). -/
def isingOffset (n : Nat) (Q : Fin n → Fin n → ℚ) : ℚ :=
  (1 / 4) * (∑ i, ∑ j, Q i j) + (1 / 4) * (∑ i, Q i i)

/-- Modelled from the spec: the Ising form evaluated on a spin vector,
`offset + ∑ h i * z i + ∑ i < j, J i j * z i * z j`. -/
def isingEnergy (n : Nat) (Q : Fin n → Fin n → ℚ) (z : Fin n → ℚ) : ℚ :=
  isingOffset n Q + (∑ i, isingH n Q i * z i)
  + ∑ i, ∑ j ∈ Finset.univ.filter (fun j => i < j), isingJ n Q i j * z i * z j

/-- The QUBO objective `xᵀQx` on a (rational-valued) assignment. -/
def quboObjective (n : Nat) (Q : Fin n → Fin n → ℚ) (x : Fin n → ℚ) : ℚ :=
  ∑ i, ∑ j, Q i j * x i * x j

/-- The spins of a bitstring: `z i = 1 − 2·x i` (so bit 0 ↦ +1, bit 1 ↦ −1). -/
def spinOfBit (n : Nat) (x : Fin n → ℚ) : Fin n → ℚ :=
  fun i => 1 - 2 * x i

/-! ## Concrete example inputs (used by witnesses and counterexamples) -/

/-- Example metrics object (values from the documented example response). -/
def metrics0 : MetricsObj :=
  { qaoa := { expected_return := 12/100, volatility := 21/100, sharpe_ratio := 62/100 }
    classical := { expected_return := 19/100, volatility := 19/100, sharpe_ratio := 74/100 } }

/-- Example benchmark metrics (SPY row of the documented example response). -/
def benchmark0 : MetricsEntry :=
  { expected_return := 12/100, volatility := 16/100, sharpe_ratio := 44/100 }

/-- A three-day backtest series. -/
def backtest0 : List BacktestPoint :=
  [ { date := "2024-01-02", cumulative_return_qaoa := 1/100,
      cumulative_return_classical := 1/100, cumulative_return_benchmark := 1/100 }
  , { date := "2024-01-03", cumulative_return_qaoa := 2/100,
      cumulative_return_classical := 2/100, cumulative_return_benchmark := 2/100 }
  , { date := "2024-01-04", cumulative_return_qaoa := 3/100,
      cumulative_return_classical := 3/100, cumulative_return_benchmark := 3/100 } ]

/-- A small frontier collection with points of several kinds. -/
def frontier0 : List FrontierPoint :=
  [ { volatility := 2/10, expected_return := 1/10, sharpe := 25/100, type := "random" }
  , { volatility := 3/10, expected_return := 15/100, sharpe := 33/100, type := "frontier" }
  , { volatility := 1/10, expected_return := 8/100, sharpe := 30/100, type := "frontier" }
  , { volatility := 25/100, expected_return := 12/100, sharpe := 28/100, type := "qaoa" } ]

/-- The random-tagged point of `frontier0`. -/
def randomPoint0 : FrontierPoint :=
  { volatility := 2/10, expected_return := 1/10, sharpe := 25/100, type := "random" }

/-- A complete results object containing all fields of the documented optimize
response. -/
def results0 : ResultsObj :=
  { qaoa_allocation := [("AAPL", 50), ("MSFT", 50), ("GOOGL", 0)]
    classical_allocation := [("AAPL", 321/10), ("MSFT", 413/10), ("GOOGL", 266/10)]
    metrics := metrics0
    benchmark := benchmark0
    correlation_matrix := [[1, 7/10, 6/10], [7/10, 1, 8/10], [6/10, 8/10, 1]]
    tickers := ["AAPL", "MSFT", "GOOGL"]
    dropped_tickers := none
    backend_used := "AerSimulator"
    used_simulator_fallback := true
    fallback_reason := some "Simulator selected by user"
    raw_counts := [("101", 312), ("110", 287), ("011", 201)]
    backtest := backtest0
    frontier := frontier0
    convergence := [5, 4, 3] }

/-- The same response with one dropped ticker reported. -/
def resultsDropped0 : ResultsObj :=
  { results0 with dropped_tickers := some ["TSLA"] }

/-- An allocation all of whose entries are positive but below 0.05 percent. -/
def allocTiny : List (String × ℚ) :=
  [("AAPL", 1/25), ("MSFT", 3/100)]

/-- A portfolio state with a single ticker (too few to submit). -/
def portfolioState1 : PortfolioState :=
  { tickers := ["AAPL"], riskTolerance := 1/2, apiKey := "", useSimulator := true
    results := none, loading := false, loadingStage := "", error := none }

/-- A portfolio state with two tickers (enough to submit). -/
def portfolioState2 : PortfolioState :=
  { tickers := ["AAPL", "MSFT"], riskTolerance := 1/2, apiKey := "", useSimulator := true
    results := none, loading := false, loadingStage := "", error := none }

/-- The covariance matrix of the end-to-end scenario in the design document. -/
def sigma0 : Fin 2 → Fin 2 → ℚ := ![![4/100, 1/100], ![1/100, 9/100]]

/-- The expected-return vector of the end-to-end scenario. -/
def mu0 : Fin 2 → ℚ := ![1/10, 2/10]

/-- A concrete bitstring selecting the first of two assets. -/
def x0 : Fin 2 → ℚ := ![1, 0]

/-! ## Theorems -/

/-! ### Ticker-list invariant machinery (C4, C3) -/

theorem addTicker_tickers_cases (s : TickerInputState) (raw : String) :
    (addTicker s raw).tickers = s.tickers ∨
    (validTicker (normalizeTickerInput raw) = true ∧
      normalizeTickerInput raw ∉ s.tickers ∧
      s.tickers.length < maxTickers ∧
      (addTicker s raw).tickers = s.tickers ++ [normalizeTickerInput raw]) := by
  unfold addTicker
  by_cases h1 : normalizeTickerInput raw = ""
  · rw [if_pos h1]; exact Or.inl rfl
  rw [if_neg h1]
  by_cases h2 : validTicker (normalizeTickerInput raw) = true
  · rw [if_neg (not_not.mpr h2)]
    by_cases h3 : normalizeTickerInput raw ∈ s.tickers
    · rw [if_pos h3]; exact Or.inl rfl
    · rw [if_neg h3]
      by_cases h4 : maxTickers ≤ s.tickers.length
      · rw [if_pos h4]; exact Or.inl rfl
      · rw [if_neg h4]; exact Or.inr ⟨h2, h3, by omega, rfl⟩
  · rw [if_pos h2]; exact Or.inl rfl

theorem tickerInv_addTicker (s : TickerInputState) (raw : String)
    (h : TickerInv s.tickers) : TickerInv (addTicker s raw).tickers := by
  rcases addTicker_tickers_cases s raw with hc | ⟨hv, hmem, hlen, hc⟩
  · rwa [hc]
  · rw [hc]
    obtain ⟨hnd, _, hval⟩ := h
    refine ⟨?_, ?_, ?_⟩
    · simp [List.nodup_append, hnd, hmem]
    · simp only [List.length_append, List.length_singleton]
      omega
    · intro t ht
      rcases List.mem_append.mp ht with ht | ht
      · exact hval t ht
      · simp only [List.mem_singleton] at ht
        rwa [ht]

theorem tickerInv_removeTicker (s : TickerInputState) (t : String)
    (h : TickerInv s.tickers) : TickerInv (removeTicker s t).tickers := by
  obtain ⟨hnd, hlen, hval⟩ := h
  refine ⟨hnd.filter _, le_trans (List.length_filter_le _ _) hlen, ?_⟩
  intro u hu
  exact hval u (List.mem_of_mem_filter hu)

theorem tickerInv_backspace (s : TickerInputState)
    (h : TickerInv s.tickers) : TickerInv (tickerBackspace s).tickers := by
  obtain ⟨hnd, hlen, hval⟩ := h
  unfold tickerBackspace
  split_ifs with hc
  · have hsub : s.tickers.dropLast.Sublist s.tickers := List.dropLast_sublist s.tickers
    exact ⟨hnd.sublist hsub, le_trans hsub.length_le hlen,
      fun t ht => hval t (hsub.subset ht)⟩
  · exact ⟨hnd, hlen, hval⟩

theorem tickerInv_applyOp (s : TickerInputState) (op : TickerOp)
    (h : TickerInv s.tickers) : TickerInv (applyTickerOp s op).tickers := by
  cases op with
  | add raw => exact tickerInv_addTicker s raw h
  | remove t => exact tickerInv_removeTicker s t h
  | backspace => exact tickerInv_backspace s h

theorem tickerInv_foldl (ops : List TickerOp) :
    ∀ s : TickerInputState, TickerInv s.tickers →
      TickerInv (ops.foldl applyTickerOp s).tickers := by
  induction ops with
  | nil => intro s h; exact h
  | cons op ops ih =>
      intro s h
      exact ih (applyTickerOp s op) (tickerInv_applyOp s op h)

/-- Claim C4: throughout every sequence of ticker-list operations the asset
universe stays an ordered, duplicate-free list of at most 50 tickers matching
the uppercase format; a successful add appends exactly one new symbol at the
end, and a remove deletes only the named ticker, preserving the order of the
rest. -/
theorem C4_asset_universe_invariant :
    (∀ ops : List TickerOp, TickerInv (runTickerOps ops).tickers)
    ∧ (∀ (s : TickerInputState) (raw : String),
        (addTicker s raw).tickers ≠ s.tickers →
          validTicker (normalizeTickerInput raw) = true ∧
          normalizeTickerInput raw ∉ s.tickers ∧
          (addTicker s raw).tickers = s.tickers ++ [normalizeTickerInput raw])
    ∧ (∀ (s : TickerInputState) (t : String),
        (removeTicker s t).tickers.Sublist s.tickers ∧
        t ∉ (removeTicker s t).tickers ∧
        ∀ x ∈ s.tickers, x ≠ t → x ∈ (removeTicker s t).tickers) := by
  refine ⟨?_, ?_, ?_⟩
  · intro ops
    exact tickerInv_foldl ops initialTickerState ⟨List.nodup_nil, by simp [initialTickerState, maxTickers], by simp [initialTickerState]⟩
  · intro s raw hne
    rcases addTicker_tickers_cases s raw with hc | ⟨hv, hmem, _, hc⟩
    · exact absurd hc hne
    · exact ⟨hv, hmem, hc⟩
  · intro s t
    refine ⟨List.filter_sublist s.tickers, ?_, ?_⟩
    · intro hmem
      have := (List.mem_filter.mp hmem).2
      simp at this
    · intro x hx hxt
      exact List.mem_filter.mpr ⟨hx, by simp [hxt]⟩

/-- Witness for C4 at concrete inputs: a run of four operations keeps the
invariant, a concrete successful add appends the normalized symbol, and a
concrete remove keeps the other ticker. -/
theorem C4_asset_universe_invariant_witness :
    TickerInv (runTickerOps
      [TickerOp.add "aapl", TickerOp.add "MSFT", TickerOp.remove "AAPL",
        TickerOp.backspace]).tickers
    ∧ (addTicker initialTickerState "msft").tickers
        = initialTickerState.tickers ++ [normalizeTickerInput "msft"]
    ∧ "MSFT" ∈ (removeTicker { tickers := ["AAPL", "MSFT"], input := "", inputError := "" }
        "AAPL").tickers := by
  refine ⟨C4_asset_universe_invariant.1 _, ?_, ?_⟩
  · exact (C4_asset_universe_invariant.2.1 initialTickerState "msft" (by decide)).2.2
  · exact (C4_asset_universe_invariant.2.2 _ "AAPL").2.2 "MSFT" (by decide) (by decide)

/-! ### C3: input-error rejection -/

theorem append_already_added_ne_empty (t : String) : t ++ " already added" ≠ "" := by
  intro h
  have hlen := congrArg String.length h
  rw [String.length_append] at hlen
  have h14 : (" already added").length = 14 := by decide
  have h0 : ("" : String).length = 0 := by decide
  rw [h14, h0] at hlen
  omega

/-- Counterexample to claim C3 as stated: the raw input `"aapl"` does not match
the uppercase ticker format after trimming, yet `addTicker` reports no input
error and changes the ticker list (the code uppercases before testing). -/
theorem C3_counterexample :
    validTicker (jsTrim "aapl") = false ∧
    (addTicker initialTickerState "aapl").tickers = ["AAPL"] ∧
    (addTicker initialTickerState "aapl").inputError = "" := by
  refine ⟨by decide, by decide, by decide⟩

/-- Claim C3, amended: a submission with fewer than two tickers sets an error
and issues no optimize request, leaving results and loading untouched; a raw
input that normalizes (trim then uppercase) to a nonempty malformed string, to
a duplicate, or that arrives at the ticker cap makes `addTicker` report an
input error and leave the list unchanged; input normalizing to the empty
string is ignored silently. -/
theorem C3_input_errors :
    (∀ (s : PortfolioState) (outcome : OptimizeOutcome),
        s.tickers.length < 2 →
          (handleSubmit s outcome).1.error = some "Please add at least 2 stock tickers." ∧
          (handleSubmit s outcome).2 = false ∧
          (handleSubmit s outcome).1.results = s.results ∧
          (handleSubmit s outcome).1.loading = s.loading)
    ∧ (∀ (s : TickerInputState) (raw : String),
        normalizeTickerInput raw ≠ "" →
        (validTicker (normalizeTickerInput raw) = false ∨
          normalizeTickerInput raw ∈ s.tickers ∨ maxTickers ≤ s.tickers.length) →
          (addTicker s raw).inputError ≠ "" ∧ (addTicker s raw).tickers = s.tickers)
    ∧ (∀ (s : TickerInputState) (raw : String),
        normalizeTickerInput raw = "" → addTicker s raw = s) := by
  refine ⟨?_, ?_, ?_⟩
  · intro s outcome h
    unfold handleSubmit
    rw [if_pos h]
    exact ⟨rfl, rfl, rfl, rfl⟩
  · intro s raw h1 hbad
    unfold addTicker
    rw [if_neg h1]
    by_cases h2 : validTicker (normalizeTickerInput raw) = true
    · rw [if_neg (not_not.mpr h2)]
      by_cases h3 : normalizeTickerInput raw ∈ s.tickers
      · rw [if_pos h3]
        exact ⟨append_already_added_ne_empty _, rfl⟩
      · rw [if_neg h3]
        by_cases h4 : maxTickers ≤ s.tickers.length
        · rw [if_pos h4]
          refine ⟨?_, rfl⟩
          show ("Max " ++ toString maxTickers ++ " tickers" : String) ≠ ""
          decide
        · rcases hbad with hbad | hbad | hbad
          · rw [h2] at hbad; cases hbad
          · exact absurd hbad h3
          · exact absurd hbad h4
    · rw [if_pos h2]
      refine ⟨?_, rfl⟩
      show ("Invalid ticker format" : String) ≠ ""
      decide
  · intro s raw h1
    unfold addTicker
    rw [if_pos h1]

/-- Witness for C3 at concrete inputs: a one-ticker submission is rejected
without a request, and a malformed nonempty input is rejected with an error
and no list change. -/
theorem C3_input_errors_witness :
    ((handleSubmit portfolioState1 (OptimizeOutcome.failure none none none)).2 = false
      ∧ (handleSubmit portfolioState1 (OptimizeOutcome.failure none none none)).1.results
          = portfolioState1.results)
    ∧ ((addTicker initialTickerState "$$").inputError ≠ ""
      ∧ (addTicker initialTickerState "$$").tickers = initialTickerState.tickers) := by
  constructor
  · have h := C3_input_errors.1 portfolioState1 (OptimizeOutcome.failure none none none)
      (by decide)
    exact ⟨h.2.1, h.2.2.1⟩
  · exact C3_input_errors.2.1 initialTickerState "$$" (by decide) (Or.inl (by decide))

/-! ### C8: boundary error normalization -/

/-- Claim C8: a failed optimize request is normalized by the client to the
response `detail` field, else its `message` field, else the transport error
message, else a fixed generic message, rethrown as a plain `Error` carrying
only that string; the hook then stores only that message, keeps `results`
null and clears `loading`. -/
theorem C8_error_normalization :
    ∀ (s : PortfolioState) (d m e : Option String),
      2 ≤ s.tickers.length →
        ((handleSubmit s (OptimizeOutcome.failure d m e)).1.results = none
        ∧ (handleSubmit s (OptimizeOutcome.failure d m e)).1.loading = false
        ∧ (handleSubmit s (OptimizeOutcome.failure d m e)).1.error
            = some (normalizeErrorMessage d m e))
        ∧ (jsTruthy d = true → normalizeErrorMessage d m e = d.getD "")
        ∧ (jsTruthy d = false → jsTruthy m = true → normalizeErrorMessage d m e = m.getD "")
        ∧ (jsTruthy d = false → jsTruthy m = false → jsTruthy e = true →
            normalizeErrorMessage d m e = e.getD "")
        ∧ (jsTruthy d = false → jsTruthy m = false → jsTruthy e = false →
            normalizeErrorMessage d m e = "An unexpected error occurred") := by
  intro s d m e hlen
  have hnot : ¬ s.tickers.length < 2 := by omega
  refine ⟨?_, ?_, ?_, ?_, ?_⟩
  · unfold handleSubmit
    rw [if_neg hnot]
    exact ⟨rfl, rfl, rfl⟩
  · intro hd; unfold normalizeErrorMessage; rw [if_pos hd]
  · intro hd hm; unfold normalizeErrorMessage
    rw [if_neg (by simp [hd]), if_pos hm]
  · intro hd hm he; unfold normalizeErrorMessage
    rw [if_neg (by simp [hd]), if_neg (by simp [hm]), if_pos he]
  · intro hd hm he; unfold normalizeErrorMessage
    rw [if_neg (by simp [hd]), if_neg (by simp [hm]), if_neg (by simp [he])]

/-- Witness for C8 at concrete inputs: a failure whose response carries a
`detail` field ends with exactly that message stored, no results, and loading
cleared. -/
theorem C8_error_normalization_witness :
    (handleSubmit portfolioState2
        (OptimizeOutcome.failure (some "Ticker INVALID not found") none none)).1.results = none
    ∧ (handleSubmit portfolioState2
        (OptimizeOutcome.failure (some "Ticker INVALID not found") none none)).1.loading = false
    ∧ (handleSubmit portfolioState2
        (OptimizeOutcome.failure (some "Ticker INVALID not found") none none)).1.error
        = some "Ticker INVALID not found" := by
  have h := C8_error_normalization portfolioState2
    (some "Ticker INVALID not found") none none (by decide)
  refine ⟨h.1.1, h.1.2.1, ?_⟩
  rw [h.1.2.2, h.2.1 (by decide)]
  rfl

/-! ### C1: the props PortfolioResults hands to BenchmarkChart -/

/-- Claim C1 fails on the code: for every results object containing all the
documented fields, PortfolioResults passes BenchmarkChart only the `backtest`
prop, so the `metrics` and `benchmark` props the child reads are undefined and
its render dereferences a property of undefined. Evaluated at the concrete
complete response `results0` as a failing input. -/
theorem C1_benchmark_chart_props_undefined :
    (∀ r : ResultsObj,
      (portfolioResultsBenchmarkChartProps r).metrics = none
      ∧ (portfolioResultsBenchmarkChartProps r).benchmark = none
      ∧ benchmarkChartRender (portfolioResultsBenchmarkChartProps r)
          = Except.error "TypeError: cannot read properties of undefined (reading qaoa)")
    ∧ benchmarkChartRender (portfolioResultsBenchmarkChartProps results0)
        = Except.error "TypeError: cannot read properties of undefined (reading qaoa)" := by
  exact ⟨fun r => ⟨rfl, rfl, rfl⟩, rfl⟩

/-! ### C5: dropped-tickers notice -/

/-- Claim C5: the PortfolioResults view contains the dropped-tickers notice —
naming every dropped ticker (their comma-joined list) with the
insufficient-historical-data reason — exactly when `dropped_tickers` is a
non-empty list, and in every case contains all the analysis sections
(allocations, metrics, correlation, comparison, frontier, performance chart,
convergence, raw counts) built from the remaining tickers. -/
theorem C5_dropped_tickers_notice :
    ∀ r : ResultsObj,
      (∀ l, r.dropped_tickers = some l → l ≠ [] →
        ResultSection.droppedNotice (String.intercalate ", " l) droppedReason
          r.tickers.length ∈ portfolioResultsView r)
      ∧ ((r.dropped_tickers = none ∨ r.dropped_tickers = some []) →
        ∀ names reason remaining,
          ResultSection.droppedNotice names reason remaining ∉ portfolioResultsView r)
      ∧ ResultSection.allocation r.qaoa_allocation r.classical_allocation
          ∈ portfolioResultsView r
      ∧ ResultSection.metricsPanel (some r.metrics) (some r.benchmark)
          ∈ portfolioResultsView r
      ∧ ResultSection.correlationHeatmap r.correlation_matrix r.tickers
          ∈ portfolioResultsView r
      ∧ ResultSection.comparison (some r.metrics) ∈ portfolioResultsView r
      ∧ ResultSection.efficientFrontier r.frontier (some r.metrics)
          ∈ portfolioResultsView r
      ∧ ResultSection.benchmarkChart (portfolioResultsBenchmarkChartProps r)
          ∈ portfolioResultsView r
      ∧ ResultSection.convergenceChart r.convergence ∈ portfolioResultsView r
      ∧ ResultSection.measurementCounts r.raw_counts ∈ portfolioResultsView r := by
  intro r
  refine ⟨?_, ?_, ?_, ?_, ?_, ?_, ?_, ?_, ?_, ?_⟩
  · intro l hsome hne
    unfold portfolioResultsView
    rw [hsome]
    simp [List.length_pos.mpr hne]
  · intro hempty names reason remaining hmem
    unfold portfolioResultsView at hmem
    rcases hempty with hempty | hempty <;> rw [hempty] at hmem <;> simp at hmem
  all_goals
    unfold portfolioResultsView
    rcases r.dropped_tickers with _ | l
    · simp
    · by_cases hpos : 0 < l.length <;> simp [hpos]

/-- Witness for C5 at concrete inputs: the response with `["TSLA"]` dropped
shows the notice, and the response with no dropped tickers shows none. -/
theorem C5_dropped_tickers_notice_witness :
    ResultSection.droppedNotice (String.intercalate ", " ["TSLA"]) droppedReason
      resultsDropped0.tickers.length ∈ portfolioResultsView resultsDropped0
    ∧ (∀ names reason remaining,
        ResultSection.droppedNotice names reason remaining ∉ portfolioResultsView results0) := by
  constructor
  · exact (C5_dropped_tickers_notice resultsDropped0).1 ["TSLA"] rfl (by decide)
  · exact (C5_dropped_tickers_notice results0).2.1 (Or.inl rfl)

/-! ### C2: the performance chart is a projection, not the backtest replay -/

theorem benchGrow_closed (r : ℚ) (m : Nat) : benchGrow r m = 100 * (1 + r) ^ m := by
  induction m with
  | zero => simp [benchGrow]
  | succ n ih => rw [benchGrow, ih, pow_succ]; ring

/-- Counterexample to claim C2: with the documented example metrics and a
three-day historical series, the QAOA series the performance chart presents is
not the day-by-day cumulative compound replay of the historical returns (the
chart always emits 25 monthly projection points, whatever the history). -/
theorem C2_counterexample :
    (benchmarkChartData metrics0 benchmark0).map BenchPoint.qaoaPct
      ≠ cumulativeReplay_spec [1/100, 2/100, 3/100] := by
  intro h
  have hl := congrArg List.length h
  simp [benchmarkChartData, cumulativeReplay_spec] at hl

/-- Claim C2, amended: the portfolio-vs-benchmark chart presents a 24-month
forward projection compounded monthly from the annualized expected returns of
the QAOA allocation and the benchmark — point `k` is
`100·((1 + r/12)^k − 1)` rounded to two decimals — labeled "Projected", and it
is independent of the historical backtest series (which the chart never
reads); only the QAOA and benchmark series are drawn, none for the classical
allocation. -/
theorem C2_projection_not_replay :
    ∀ (m : MetricsObj) (b : MetricsEntry) (k : Nat), k < 25 →
      (benchmarkChartData m b).length = 25
      ∧ (benchmarkChartData m b)[k]?
          = some (projectionPoint (m.qaoa.expected_return / 12) (b.expected_return / 12) k)
      ∧ benchmarkChartBadge = "Projected · 2-year" := by
  intro m b k hk
  refine ⟨by simp [benchmarkChartData], ?_, rfl⟩
  unfold benchmarkChartData
  rw [List.getElem?_map, List.getElem?_range hk]
  cases k with
  | zero => rfl
  | succ n =>
      simp only [Option.map_some, Nat.succ_ne_zero, if_neg, projectionPoint,
        benchGrow_closed]
      rfl

/-- Witness for C2's amended claim at the documented example metrics and month
one: the second chart point is the projection point, which evaluates to a
plus-one-percent month. -/
theorem C2_projection_not_replay_witness :
    (benchmarkChartData metrics0 benchmark0)[1]?
      = some (projectionPoint (metrics0.qaoa.expected_return / 12)
          (benchmark0.expected_return / 12) 1)
    ∧ projectionPoint (metrics0.qaoa.expected_return / 12)
        (benchmark0.expected_return / 12) 1
      = { month := "1M", qaoaPct := 1, spyPct := 1 } := by
  refine ⟨(C2_projection_not_replay metrics0 benchmark0 1 (by decide)).2.1, ?_⟩
  simp only [projectionPoint, if_neg Nat.one_ne_zero, BenchPoint.mk.injEq]
  refine ⟨by decide, ?_, ?_⟩ <;> norm_num [toFixedRat, metrics0, benchmark0]

/-! ### C7: degenerate allocation handling in the pie chart -/

/-- Counterexample to claim C7 as stated: `allocTiny` has only positive entries
(so the claim requires exactly those assets to be charted), yet both round to
zero at one decimal, the chart falls into the degenerate branch, and only the
placeholder ring is charted. -/
theorem C7_counterexample :
    (0 : ℚ) < 1/25 ∧ ("AAPL", (1 : ℚ)/25) ∈ allocTiny
    ∧ (pieChartData (allocToData allocTiny)).map Prod.fst
        ≠ (allocTiny.filter (fun nv => decide (0 < nv.2))).map Prod.fst := by
  refine ⟨by norm_num, by simp [allocTiny], ?_⟩
  have h1 : toFixedRat 1 ((1 : ℚ)/25) = 0 := by norm_num [toFixedRat]
  have h2 : toFixedRat 1 ((3 : ℚ)/100) = 0 := by norm_num [toFixedRat]
  have hdata : allocToData allocTiny = [("AAPL", 0), ("MSFT", 0)] := by
    simp only [allocToData, allocTiny]
    norm_num [h1, h2]
  rw [hdata]
  have hno : pieNoAlloc [("AAPL", (0 : ℚ)), ("MSFT", 0)] = true := by
    simp [pieNoAlloc]
  rw [pieChartData, if_pos hno]
  have hfil : allocTiny.filter (fun nv => decide (0 < nv.2)) = allocTiny := by
    simp only [allocTiny]
    norm_num
  rw [hfil]
  simp [allocTiny]

/-- Claim C7, amended: an all-zero allocation renders the placeholder ring with
an empty legend; an allocation having a positive entry that still shows at one
decimal (at least 0.05 percent — true of any percentage allocation summing to
100) charts exactly its positive-weight assets. -/
theorem C7_degenerate_allocation :
    (∀ alloc : List (String × ℚ), (∀ nv ∈ alloc, nv.2 = 0) →
        pieChartData (allocToData alloc) = [("None", 1)]
        ∧ pieLegend (allocToData alloc) = [])
    ∧ (∀ alloc : List (String × ℚ),
        (∃ nv ∈ alloc, 0 < nv.2 ∧ toFixedRat 1 nv.2 ≠ 0) →
          pieChartData (allocToData alloc) = allocToData alloc
          ∧ (pieChartData (allocToData alloc)).map Prod.fst
              = (alloc.filter (fun nv => decide (0 < nv.2))).map Prod.fst) := by
  constructor
  · intro alloc h
    have hfil : alloc.filter (fun nv => decide (0 < nv.2)) = [] := by
      rw [List.filter_eq_nil_iff]
      intro nv hnv
      simp [h nv hnv]
    have hdata : allocToData alloc = [] := by
      rw [allocToData, hfil]
      rfl
    rw [hdata]
    exact ⟨rfl, rfl⟩
  · rintro alloc ⟨nv, hmem, hpos, hr⟩
    have hmemdata : (nv.1, toFixedRat 1 nv.2) ∈ allocToData alloc := by
      exact List.mem_map_of_mem _ (List.mem_filter.mpr ⟨hmem, by simp [hpos]⟩)
    have hno : pieNoAlloc (allocToData alloc) = false := by
      rw [pieNoAlloc, List.all_eq_false]
      exact ⟨(nv.1, toFixedRat 1 nv.2), hmemdata, by simp [hr]⟩
    have hpie : pieChartData (allocToData alloc) = allocToData alloc := by
      rw [pieChartData, if_neg (by simp [hno])]
    refine ⟨hpie, ?_⟩
    rw [hpie, allocToData, List.map_map]
    rfl

/-- Witness for C7 at concrete inputs: the all-zero allocation renders the
placeholder with an empty legend, and the documented example allocation charts
its data unchanged. -/
theorem C7_degenerate_allocation_witness :
    (pieChartData (allocToData [("AAPL", (0 : ℚ)), ("MSFT", 0)]) = [("None", 1)]
      ∧ pieLegend (allocToData [("AAPL", (0 : ℚ)), ("MSFT", 0)]) = [])
    ∧ pieChartData (allocToData [("AAPL", (50 : ℚ)), ("MSFT", 50), ("GOOGL", 0)])
        = allocToData [("AAPL", (50 : ℚ)), ("MSFT", 50), ("GOOGL", 0)] := by
  constructor
  · refine C7_degenerate_allocation.1 _ ?_
    intro nv hnv
    simp only [List.mem_cons, List.not_mem_nil, or_false] at hnv
    rcases hnv with h | h <;> rw [h]
  · refine (C7_degenerate_allocation.2 _ ?_).1
    exact ⟨("AAPL", 50), by simp, by norm_num, by norm_num [toFixedRat]⟩

/-! ### C6: efficient-frontier rendering -/

/-- Claim C6: the rendered frontier curve is exactly the points tagged
`frontier`, in ascending-volatility order, and the random cloud is the points
tagged `random`, a separate series disjoint from the curve. -/
theorem C6_frontier_curve_and_cloud :
    ∀ f : List FrontierPoint,
      (frontierCurve f).Perm (f.filter (fun p => p.type == "frontier"))
      ∧ List.Pairwise (fun a b : FrontierPoint => a.volatility ≤ b.volatility)
          (frontierCurve f)
      ∧ (∀ p ∈ frontierRandomCloud f, p.type = "random")
      ∧ (∀ p ∈ frontierCurve f, p.type = "frontier")
      ∧ (∀ p ∈ frontierRandomCloud f, p ∉ frontierCurve f) := by
  intro f
  have hcurve_mem : ∀ p ∈ frontierCurve f, p.type = "frontier" := by
    intro p hp
    have hmem : p ∈ f.filter (fun p => p.type == "frontier") :=
      (List.mergeSort_perm _ _).subset hp
    have := (List.mem_filter.mp hmem).2
    simpa using this
  refine ⟨List.mergeSort_perm _ _, ?_, ?_, hcurve_mem, ?_⟩
  · have hsorted := @List.sorted_mergeSort FrontierPoint
      (fun a b : FrontierPoint => decide (a.volatility ≤ b.volatility))
      (fun a b c hab hbc => by
        simp only [decide_eq_true_eq] at *
        exact le_trans hab hbc)
      (fun a b => by
        simp only [Bool.or_eq_true, decide_eq_true_eq]
        exact le_total a.volatility b.volatility)
      (f.filter (fun p => p.type == "frontier"))
    exact hsorted.imp (fun h => by simpa using h)
  · intro p hp
    have := (List.mem_filter.mp hp).2
    simpa using this
  · intro p hp hpc
    have h1 : p.type = "random" := by
      have := (List.mem_filter.mp hp).2
      simpa using this
    have h2 := hcurve_mem p hpc
    rw [h1] at h2
    exact absurd h2 (by decide)

/-- Witness for C6 at the concrete frontier collection `frontier0`: the curve
is the two frontier-tagged points in ascending-volatility order, and the
random point is not on the curve. -/
theorem C6_frontier_curve_and_cloud_witness :
    randomPoint0.type = "random" ∧ randomPoint0 ∉ frontierCurve frontier0 := by
  have hmem : randomPoint0 ∈ frontierRandomCloud frontier0 := by
    simp [frontierRandomCloud, frontier0, randomPoint0]
  exact ⟨(C6_frontier_curve_and_cloud frontier0).2.2.1 _ hmem,
    (C6_frontier_curve_and_cloud frontier0).2.2.2.2 _ hmem⟩

/-! ### C10: convergence-chart thinning keeps the endpoints -/

theorem convergenceData_snd (conv : List ℚ) :
    (convergenceData conv).map Prod.snd
      = (convergenceKept conv).map (fun ic => toFixedRat 6 ic.2) := by
  unfold convergenceData
  rw [List.map_map]
  have h1 : (Prod.snd ∘ fun kic : Nat × (Nat × ℚ) =>
        (kic.1 * convergenceStep conv + 1, toFixedRat 6 kic.2.2))
      = (fun ic : Nat × ℚ => toFixedRat 6 ic.2) ∘ Prod.snd := rfl
  rw [h1, ← List.map_map, List.enum_map_snd]

theorem convergenceKept_head_mem (conv : List ℚ) (h : conv ≠ []) :
    (0, conv.head h) ∈ convergenceKept conv := by
  have hlen : 0 < conv.length := List.length_pos.mpr h
  have hlen' : 0 < conv.enum.length := by rwa [List.enum_length]
  have hget : conv.enum[0] = (0, conv[0]) := List.getElem_enum conv 0 hlen'
  have hmem : (0, conv.head h) ∈ conv.enum := by
    rw [List.head_eq_getElem conv h, ← hget]
    exact List.getElem_mem hlen'
  refine List.mem_filter.mpr ⟨hmem, ?_⟩
  simp

theorem convergenceKept_last_mem (conv : List ℚ) (h : conv ≠ []) :
    (conv.length - 1, conv.getLast h) ∈ convergenceKept conv := by
  have hlen : 0 < conv.length := List.length_pos.mpr h
  have hlt : conv.length - 1 < conv.enum.length := by
    rw [List.enum_length]; omega
  have hget : conv.enum[conv.length - 1] = (conv.length - 1, conv[conv.length - 1]) :=
    List.getElem_enum conv (conv.length - 1) hlt
  have hmem : (conv.length - 1, conv.getLast h) ∈ conv.enum := by
    rw [List.getLast_eq_getElem conv h, ← hget]
    exact List.getElem_mem hlt
  refine List.mem_filter.mpr ⟨hmem, ?_⟩
  simp

/-- Claim C10: for every non-empty convergence trace, the thinned series the
chart plots still contains the first and the last recorded energy estimates
(up to the uniform six-decimal display rounding applied to every point), the
chart header shows the length of the full unthinned trace, and the plotted
series is never longer than the trace. -/
theorem C10_convergence_endpoints_and_header :
    ∀ (conv : List ℚ) (h : conv ≠ []),
      toFixedRat 6 (conv.head h) ∈ (convergenceData conv).map Prod.snd
      ∧ toFixedRat 6 (conv.getLast h) ∈ (convergenceData conv).map Prod.snd
      ∧ convergenceIterationsDisplayed conv = conv.length
      ∧ (convergenceData conv).length ≤ conv.length := by
  intro conv h
  refine ⟨?_, ?_, rfl, ?_⟩
  · rw [convergenceData_snd]
    exact List.mem_map_of_mem _ (convergenceKept_head_mem conv h)
  · rw [convergenceData_snd]
    exact List.mem_map_of_mem _ (convergenceKept_last_mem conv h)
  · unfold convergenceData convergenceKept
    rw [List.length_map, List.enum_length]
    calc (List.filter _ conv.enum).length ≤ conv.enum.length :=
          List.length_filter_le _ _
      _ = conv.length := List.enum_length

/-- Witness for C10 at the concrete trace `[5, 4, 3]`: both endpoint costs
appear in the plotted series and the header shows three iterations. -/
theorem C10_convergence_endpoints_witness :
    toFixedRat 6 5 ∈ (convergenceData [5, 4, 3]).map Prod.snd
    ∧ toFixedRat 6 3 ∈ (convergenceData [5, 4, 3]).map Prod.snd
    ∧ convergenceIterationsDisplayed [5, 4, 3] = 3 := by
  have h := C10_convergence_endpoints_and_header [5, 4, 3] (by decide)
  exact ⟨h.1, h.2.1, h.2.2.1⟩

/-! ### C9: QUBO/Ising round trip -/

theorem ising_qubo_identity (n : Nat) (Q : Fin n → Fin n → ℚ) (x : Fin n → ℚ)
    (hx : ∀ i, x i = 0 ∨ x i = 1) :
    isingEnergy n Q (spinOfBit n x) = quboObjective n Q x := by
  set z := spinOfBit n x with hzdef
  have hz : ∀ i, z i = 1 - 2 * x i := fun i => rfl
  have hpair1 :
      (∑ i, ∑ j ∈ Finset.univ.filter (fun j => i < j), isingJ n Q i j * z i * z j)
        = (∑ i, ∑ j, (if i < j then (1/4) * Q i j * z i * z j else 0))
          + ∑ i, ∑ j, (if i < j then (1/4) * Q j i * z i * z j else 0) := by
    rw [← Finset.sum_add_distrib]
    refine Finset.sum_congr rfl fun i _ => ?_
    rw [Finset.sum_filter, ← Finset.sum_add_distrib]
    refine Finset.sum_congr rfl fun j _ => ?_
    by_cases hlt : i < j
    · rw [if_pos hlt, if_pos hlt, if_pos hlt, isingJ]
      ring
    · rw [if_neg hlt, if_neg hlt, if_neg hlt]
      ring
  have hswap :
      (∑ i, ∑ j, (if i < j then (1/4) * Q j i * z i * z j else 0))
        = ∑ i, ∑ j, (if j < i then (1/4) * Q i j * z i * z j else 0) := by
    rw [Finset.sum_comm]
    refine Finset.sum_congr rfl fun i _ => Finset.sum_congr rfl fun j _ => ?_
    by_cases hlt : j < i
    · rw [if_pos hlt, if_pos hlt]
      ring
    · rw [if_neg hlt, if_neg hlt]
  have hlin :
      (∑ i, isingH n Q i * z i)
        = (∑ i, ∑ j, -(1/4) * Q i j * z i) + ∑ i, ∑ j, -(1/4) * Q i j * z j := by
    have h1 : ∀ i, isingH n Q i * z i
        = (∑ j, -(1/4) * Q i j * z i) + ∑ j, -(1/4) * Q j i * z i := by
      intro i
      rw [isingH]
      calc -(1/4) * ((∑ j, Q i j) + ∑ j, Q j i) * z i
          = (∑ j, Q i j) * (-(1/4) * z i) + (∑ j, Q j i) * (-(1/4) * z i) := by ring
        _ = (∑ j, Q i j * (-(1/4) * z i)) + ∑ j, Q j i * (-(1/4) * z i) := by
            rw [Finset.sum_mul, Finset.sum_mul]
        _ = (∑ j, -(1/4) * Q i j * z i) + ∑ j, -(1/4) * Q j i * z i := by
            congr 1 <;> exact Finset.sum_congr rfl fun j _ => by ring
    calc (∑ i, isingH n Q i * z i)
        = ∑ i, ((∑ j, -(1/4) * Q i j * z i) + ∑ j, -(1/4) * Q j i * z i) :=
          Finset.sum_congr rfl fun i _ => h1 i
      _ = (∑ i, ∑ j, -(1/4) * Q i j * z i) + ∑ i, ∑ j, -(1/4) * Q j i * z i :=
          Finset.sum_add_distrib
      _ = (∑ i, ∑ j, -(1/4) * Q i j * z i) + ∑ i, ∑ j, -(1/4) * Q i j * z j := by
          rw [@Finset.sum_comm _ _ _ _ _ _ (fun i j => -(1/4) * Q j i * z i)]
  have hoff : isingOffset n Q
      = (∑ i, ∑ j, (1/4) * Q i j) + ∑ i, ∑ j, (if i = j then (1/4) * Q i j else 0) := by
    rw [isingOffset]
    congr 1
    · rw [Finset.mul_sum]
      exact Finset.sum_congr rfl fun i _ => Finset.mul_sum _ _ _
    · rw [Finset.mul_sum]
      refine Finset.sum_congr rfl fun i _ => ?_
      rw [Finset.sum_ite_eq]
      simp
  have merge2 : ∀ f g : Fin n → Fin n → ℚ,
      ((∑ i, ∑ j, f i j) + ∑ i, ∑ j, g i j) = ∑ i, ∑ j, (f i j + g i j) := by
    intro f g
    rw [← Finset.sum_add_distrib]
    exact Finset.sum_congr rfl fun i _ => Finset.sum_add_distrib.symm
  rw [isingEnergy, quboObjective, hpair1, hswap, hlin, hoff,
    merge2, merge2, merge2, merge2, merge2]
  refine Finset.sum_congr rfl fun i _ => Finset.sum_congr rfl fun j _ => ?_
  by_cases hij : i = j
  · subst hij
    rw [if_pos rfl]
    simp only [lt_self_iff_false, if_false]
    rcases hx i with h | h <;> rw [hz i, h] <;> ring
  · rw [if_neg hij]
    rcases Ne.lt_or_lt hij with hlt | hlt
    · rw [if_pos hlt, if_neg (asymm hlt), hz i, hz j]
      ring
    · rw [if_neg (asymm hlt), if_pos hlt, hz i, hz j]
      ring

/-- Claim C9: for every QUBO matrix built by the QUBO Builder from a symmetric
covariance matrix, a return vector and a risk tolerance, the matrix is
symmetric, and the Ising form obtained by the `x = (1 − z)/2` substitution
evaluated on the spins of any bitstring equals the QUBO objective on that
bitstring — exactly, in rational arithmetic, hence within every positive
tolerance. -/
theorem C9_qubo_ising_roundtrip :
    ∀ (n : Nat) (sigma : Fin n → Fin n → ℚ) (mu : Fin n → ℚ) (lam : ℚ)
      (x : Fin n → ℚ),
      (∀ i j, sigma i j = sigma j i) →
      (∀ i, x i = 0 ∨ x i = 1) →
        (∀ i j, quboBuild n sigma mu lam i j = quboBuild n sigma mu lam j i)
        ∧ isingEnergy n (quboBuild n sigma mu lam) (spinOfBit n x)
            = quboObjective n (quboBuild n sigma mu lam) x := by
  intro n sigma mu lam x hsym hx
  refine ⟨?_, ising_qubo_identity n _ x hx⟩
  intro i j
  simp only [quboBuild]
  by_cases h : i = j
  · rw [h]
  · rw [if_neg h, if_neg (fun hh => h hh.symm), hsym i j]

/-- Witness for C9 at the documented two-asset scenario: the hypotheses hold
for `sigma0`, `mu0`, `x0`, the built matrix is symmetric there, and the Ising
energy of the spins of `x0` equals the QUBO objective, whose value evaluates
to `7/36`. -/
theorem C9_qubo_ising_roundtrip_witness :
    (∀ i j, quboBuild 2 sigma0 mu0 (1/2) i j = quboBuild 2 sigma0 mu0 (1/2) j i)
    ∧ isingEnergy 2 (quboBuild 2 sigma0 mu0 (1/2)) (spinOfBit 2 x0)
        = quboObjective 2 (quboBuild 2 sigma0 mu0 (1/2)) x0
    ∧ quboObjective 2 (quboBuild 2 sigma0 mu0 (1/2)) x0 = 7/36 := by
  have hsym : ∀ i j, sigma0 i j = sigma0 j i := by
    intro i j
    fin_cases i <;> fin_cases j <;> rfl
  have hx : ∀ i, x0 i = 0 ∨ x0 i = 1 := by
    intro i
    fin_cases i
    · exact Or.inr rfl
    · exact Or.inl rfl
  obtain ⟨h1, h2⟩ := C9_qubo_ising_roundtrip 2 sigma0 mu0 (1/2) x0 hsym hx
  refine ⟨h1, h2, ?_⟩
  have hfin : List.finRange 2 = [0, 1] := rfl
  have hmat : maxAbsMatrix 2 sigma0 = 9/100 := by
    rw [maxAbsMatrix, hfin]
    simp only [List.map_cons, List.map_nil, List.foldr_cons, List.foldr_nil, sigma0,
      Matrix.cons_val_zero, Matrix.cons_val_one, Matrix.head_cons]
    norm_num [max_def, abs]
  have hvec : maxAbsVec 2 mu0 = 1/5 := by
    rw [maxAbsVec, hfin]
    simp only [List.map_cons, List.map_nil, List.foldr_cons, List.foldr_nil, mu0,
      Matrix.cons_val_zero, Matrix.cons_val_one, Matrix.head_cons]
    norm_num [max_def, abs]
  simp only [quboObjective, Fin.sum_univ_two, quboBuild, hmat, hvec]
  norm_num [sigma0, mu0, x0, Matrix.cons_val_zero, Matrix.cons_val_one, Matrix.head_cons]
